import Mathlib

/-!
Shallow embedding of the moorcheh-mcp adaptation layer.

The definitions below are translated from the repository's JavaScript
sources (file and line references are given on each definition).  JS
numbers are modelled as exact rationals (`Rat`); the floating-point
rounding of IEEE doubles plays no role in any of the properties
considered.  A JSON value is modelled by `JVal`; a JS object literal is
an ordered association list, so that "the request body contains no
`threshold` field" is a statement about the list of keys, exactly as it
is about the serialized body on the wire.  Handlers are modelled as pure
functions from their arguments and an environment (the outcomes of the
HTTP exchanges they perform) to the ordered list of HTTP calls they
issue together with the tool result they return; `try/catch` around a
whole handler body becomes totality of the function, and a thrown
transport error becomes an `Except.error` carrying the thrown message.
-/

namespace Moorcheh

/-- A JSON value.  JS `undefined` is represented by `Option.none` at use
sites (a missing object property), never by a `JVal` constructor, since
`undefined` properties are dropped when a request body is serialized. -/
inductive JVal where
  | null : JVal
  | bool : Bool → JVal
  | num : Rat → JVal
  | str : String → JVal
  | arr : List JVal → JVal
  | obj : List (String × JVal) → JVal
deriving Repr

/-- First binding of `key` in an ordered association list of object fields. -/
def findField : List (String × JVal) → String → Option JVal
  | [], _ => none
  | (k, v) :: t, key => if k = key then some v else findField t key

/-- JS property access `v[key]` on a parsed JSON value: `none` models
`undefined` (missing property or non-object receiver). -/
def lookupField (v : JVal) (key : String) : Option JVal :=
  match v with
  | .obj fs => findField fs key
  | _ => none

/-- JS truthiness of a defined JSON value (`null`, `false`, `0`, `""` are falsy). -/
def jsTruthy : JVal → Bool
  | .null => false
  | .bool b => b
  | .num q => decide (q ≠ 0)
  | .str s => !s.isEmpty
  | .arr _ => true
  | .obj _ => true

/-- JS truthiness of a possibly-undefined value. -/
def jsTruthyOpt : Option JVal → Bool
  | some v => jsTruthy v
  | none => false

/-- Display of a JS number in a template literal.  Integral values print
as in JS; the decimal rendering of non-integral values is abstracted by
`Rat`'s printer (no verified property inspects such a string). -/
def jsNumToString (q : Rat) : String :=
  if q.den = 1 then toString q.num else toString q

mutual

/-- JS `String(v)` / template-literal interpolation of a JSON value. -/
def jsDisplay : JVal → String
  | .null => "null"
  | .bool b => if b then "true" else "false"
  | .num q => jsNumToString q
  | .str s => s
  | .arr xs => jsDisplayList xs
  | .obj _ => "[object Object]"

/-- JS `Array.prototype.toString`: elements joined with commas. -/
def jsDisplayList : List JVal → String
  | [] => ""
  | [x] => jsDisplay x
  | x :: y :: t => jsDisplay x ++ "," ++ jsDisplayList (y :: t)

end

/-- Template-literal interpolation of a possibly-undefined value. -/
def jsDisplayOpt : Option JVal → String
  | some v => jsDisplay v
  | none => "undefined"

mutual

/-- `JSON.stringify`.  Whitespace of the pretty-printing variant
(`JSON.stringify(x, null, 2)`) and string escaping are abstracted;
no verified property inspects a stringified success payload. -/
def stringifyJV : JVal → String
  | .null => "null"
  | .bool b => if b then "true" else "false"
  | .num q => jsNumToString q
  | .str s => "\"" ++ s ++ "\""
  | .arr xs => "[" ++ stringifyArr xs ++ "]"
  | .obj fs => "\x7b" ++ stringifyFields fs ++ "\x7d"

def stringifyArr : List JVal → String
  | [] => ""
  | [x] => stringifyJV x
  | x :: y :: t => stringifyJV x ++ "," ++ stringifyArr (y :: t)

def stringifyFields : List (String × JVal) → String
  | [] => ""
  | [(k, v)] => "\"" ++ k ++ "\":" ++ stringifyJV v
  | (k, v) :: f :: t => "\"" ++ k ++ "\":" ++ stringifyJV v ++ "," ++ stringifyFields (f :: t)

end

/-! ### Endpoint registry (src/src/server/config/api.js, lines 45-54) -/

/-- api.js line 46: `constructApiUrl`. -/
def constructApiUrl (endpoint : String) : String :=
  "https://api.moorcheh.ai/v1" ++ endpoint

/-- api.js line 51: `API_ENDPOINTS.namespaces`. -/
def namespacesUrl : String := constructApiUrl "/namespaces"

/-- api.js line 52: `API_ENDPOINTS.search`. -/
def searchUrl : String := constructApiUrl "/search"

/-- api.js line 53: `API_ENDPOINTS.answer`. -/
def answerUrl : String := constructApiUrl "/answer"

/-! ### Transport adapter (src/src/server/config/api.js, lines 56-89) -/

/-- Outcome of one axios exchange, as observed by the `catch` clause of
`makeApiRequest`: a 2xx response with parsed data, a non-2xx response
(axios rejects with `error.response` set; the response body is carried
as its JSON text, which is what `JSON.stringify(data)` re-produces), or
a connection-level failure with no response. -/
inductive AxiosOutcome (α : Type) where
  | success (data : α)
  | httpError (status : Nat) (body : String)
  | networkError (msg : String)

/-- api.js lines 75-85: the error message built for a non-2xx response.
The source checks 403 before 401. -/
def classifyHttpError (status : Nat) (body : String) : String :=
  if status = 403 then
    "Forbidden: Check your API key. Status: " ++ toString status ++ ", Response: " ++ body
  else if status = 401 then
    "Unauthorized: Invalid API key. Status: " ++ toString status ++ ", Response: " ++ body
  else
    "API Error (" ++ toString status ++ "): " ++ body

/-- api.js lines 57-89: `makeApiRequest`, as a function of the exchange
outcome.  A thrown `Error` becomes `Except.error` of its message. -/
def makeApiRequest {α : Type} (outcome : AxiosOutcome α) : Except String α :=
  match outcome with
  | .success d => .ok d
  | .httpError s b => .error (classifyHttpError s b)
  | .networkError m => .error ("Network Error: " ++ m)

/-- One HTTP call issued by a handler, in issue order.  `body` is the
JSON request body (`none` for calls without one and for the multipart
file upload, whose streamed form body is not JSON). -/
inductive HttpMethod where
  | get
  | post
  | delete
deriving Repr, DecidableEq

structure ApiCall where
  method : HttpMethod
  url : String
  body : Option JVal
deriving Repr

/-- A tool result: the MCP `content` array, each entry a `type: "text"` block. -/
structure ToolResult where
  content : List String
deriving Repr

/-- The single-text-block result shape every handler in this repository returns. -/
def textResult (s : String) : ToolResult := ⟨[s]⟩

/-! ### JS `parseFloat` and the comma-separated vector parse
(src/src/server/tools/search-tools.js, line 29) -/

/-- Value of a digit run, most significant first. -/
def digitsToNat (ds : List Char) : Nat :=
  ds.foldl (fun a c => a * 10 + (c.toNat - 48)) 0

/-- JS `parseFloat` on a character list: optional sign, longest prefix
shaped `digits [. digits] [e|E [sign] digits]` (at least one digit in
the integer or fraction part), trailing characters ignored; `none`
models `NaN`.  The values are exact rationals; the `Infinity` literal
and IEEE rounding are outside the model (no claim involves them). -/
def jsParseFloatChars (cs : List Char) : Option Rat :=
  let signed : Bool × List Char :=
    match cs with
    | '-' :: t => (true, t)
    | '+' :: t => (false, t)
    | _ => (false, cs)
  let ipSplit := signed.2.span (·.isDigit)
  let fpSplit : List Char × List Char :=
    match ipSplit.2 with
    | '.' :: t => t.span (·.isDigit)
    | _ => ([], ipSplit.2)
  if ipSplit.1.isEmpty && fpSplit.1.isEmpty then none
  else
    let mantissa : Rat :=
      (digitsToNat ipSplit.1 : Rat) + (digitsToNat fpSplit.1 : Rat) / ((10 : Rat) ^ fpSplit.1.length)
    let value : Rat :=
      match fpSplit.2 with
      | e :: t =>
        if e = 'e' ∨ e = 'E' then
          let esigned : Bool × List Char :=
            match t with
            | '-' :: u => (true, u)
            | '+' :: u => (false, u)
            | _ => (false, t)
          let ed := (esigned.2.span (·.isDigit)).1
          if ed.isEmpty then mantissa
          else if esigned.1 then mantissa / (10 : Rat) ^ digitsToNat ed
          else mantissa * (10 : Rat) ^ digitsToNat ed
        else mantissa
      | [] => mantissa
    some (if signed.1 then -value else value)

def jsParseFloat (s : String) : Option Rat :=
  jsParseFloatChars s.toList

/-- JS `String.prototype.split(',')` on the character list: the empty
string yields `[""]`, adjacent separators yield empty pieces. -/
def splitOnComma (cs : List Char) : List (List Char) :=
  match cs with
  | [] => [[]]
  | c :: t =>
    if c = ',' then [] :: splitOnComma t
    else
      match splitOnComma t with
      | h :: r => (c :: h) :: r
      | [] => [[c]]

/-- JS `String.prototype.trim` on the character list (ASCII whitespace;
the exotic Unicode space classes coincide for every input considered). -/
def trimChars (cs : List Char) : List Char :=
  ((cs.dropWhile Char.isWhitespace).reverse.dropWhile Char.isWhitespace).reverse

/-- search-tools.js line 29:
`query.split(',').map(s => parseFloat(s.trim())).filter(v => !isNaN(v))` —
entries whose parse is `NaN` are dropped. -/
def parseVectorString (q : String) : List Rat :=
  (splitOnComma q.data).filterMap (fun cs => jsParseFloatChars (trimChars cs))

/-! ### Namespace metadata and response payloads

Response payloads whose fields the handlers read are given typed
shapes; a well-formed service response is assumed (an array field is an
array, a name is a string).  A field that may be missing or `null` in
the response is an `Option`; for `vector_dimension` this identification
is faithful because the source only ever reads it through the falsy
checks `vd || fallback` and `${vd || ''}`, which treat `undefined`,
`null` and `0` alike. -/

/-- One entry of the `GET /namespaces` response array
(read at search-tools.js lines 25-30 and namespace-tools.js lines 24-33). -/
structure NamespaceInfo where
  namespace_name : String
  type : Option String
  vector_dimension : Option Rat
  createdAt : Option JVal := none
  itemCount : Option JVal := none

/-- The `GET /namespaces` response; `namespaces` read through
`data.namespaces || []` (search-tools.js line 22). -/
structure NsListData where
  namespaces : Option (List NamespaceInfo)

/-- One entry of the search response's `results` array
(search-tools.js lines 64-72). -/
structure SearchResult where
  content : String
  score : Option Rat
  metadata : Option JVal

/-- The `POST /search` response (search-tools.js lines 54, 73). -/
structure SearchData where
  results : Option (List SearchResult)
  total : Option Rat

/-! ### Search tool (src/src/server/tools/search-tools.js, lines 5-93) -/

/-- The `query` argument: `z.union([z.string(), z.array(z.number())])`. -/
inductive QueryInput where
  | str (s : String)
  | vec (xs : List Rat)
deriving Repr

def queryToJVal : QueryInput → JVal
  | .str s => .str s
  | .vec xs => .arr (xs.map JVal.num)

/-- Template-literal interpolation `${query}` of the query argument
(a JS array displays as its comma-joined elements). -/
def displayQuery : QueryInput → String
  | .str s => s
  | .vec xs => String.intercalate "," (xs.map jsNumToString)

/-- The outcomes of the (at most two) HTTP exchanges a search
invocation performs. -/
structure SearchEnv where
  listOutcome : AxiosOutcome NsListData
  searchOutcome : AxiosOutcome SearchData

/-- search-tools.js line 30: `targetNamespace.vector_dimension || arr.length`. -/
def dimOrDefault (vd : Option Rat) (fallback : Nat) : Rat :=
  match vd with
  | some d => if d = 0 then (fallback : Rat) else d
  | none => (fallback : Rat)

/-- search-tools.js line 35: `${targetNamespace.vector_dimension || ''}`. -/
def dimDisplay : Option Rat → String
  | none => ""
  | some d => if d = 0 then "" else jsNumToString d

/-- search-tools.js line 35: the validation-error text returned when the
comma-separated parse is rejected. -/
def dimErrorText (vd : Option Rat) : String :=
  "Error: Query string could not be parsed into a valid " ++ dimDisplay vd ++
    "-dimensional vector array. Please provide a comma-separated list of numbers matching the namespace dimension."

/-- search-tools.js lines 50-52: the `threshold` field is added to the
request body only when the argument was supplied. -/
def thresholdField : Option Rat → List (String × JVal)
  | some t => [("threshold", JVal.num t)]
  | none => []

/-- search-tools.js lines 44-52: the search request body. -/
def searchRequestBody (namespaces : List String) (finalQuery : QueryInput)
    (top_k : Rat) (kiosk_mode : Bool) (threshold : Option Rat) : JVal :=
  .obj ([("namespaces", .arr (namespaces.map JVal.str)),
         ("query", queryToJVal finalQuery),
         ("top_k", .num top_k),
         ("kiosk_mode", .bool kiosk_mode)]
        ++ thresholdField threshold)

/-- search-tools.js line 68: `result.score || 'N/A'`. -/
def scoreDisplay : Option Rat → String
  | some s => if s = 0 then "N/A" else jsNumToString s
  | none => "N/A"

/-- search-tools.js lines 64-72: one formatted result block. -/
def formatResult (i : Nat) (r : SearchResult) : String :=
  String.intercalate "\n"
    ["Result " ++ toString (i + 1) ++ ":",
     "Content: " ++ r.content,
     "Score: " ++ scoreDisplay r.score,
     "Metadata: " ++ stringifyJV (r.metadata.getD (.obj [])),
     "---"]

/-- search-tools.js line 73: `data.total || data.results.length`. -/
def totalDisplay (total : Option Rat) (resultCount : Nat) : String :=
  match total with
  | some t => if t = 0 then toString resultCount else jsNumToString t
  | none => toString resultCount

/-- search-tools.js line 59: the empty-result text. -/
def noResultsText (query : QueryInput) : String :=
  "No results found for query: \"" ++ displayQuery query ++ "\""

/-- search-tools.js line 73: the formatted result text. -/
def searchSuccessText (query : QueryInput) (namespaces : List String)
    (rs : List SearchResult) (total : Option Rat) : String :=
  "Search results for \"" ++ displayQuery query ++ "\" in namespaces [" ++
    String.intercalate ", " namespaces ++ "]:\n\n" ++
    String.intercalate "\n" ((rs.enum).map (fun p => formatResult p.1 p.2)) ++
    "\n\nTotal results: " ++ totalDisplay total rs.length

/-- search-tools.js lines 44-91: the part of the handler from building
the request body onward, shared by every path that reaches the search
endpoint.  `trace` is the list of calls already issued. -/
def searchRequestPhase (searchOutcome : AxiosOutcome SearchData) (trace : List ApiCall)
    (origQuery : QueryInput) (namespaces : List String) (finalQuery : QueryInput)
    (top_k : Rat) (kiosk_mode : Bool) (threshold : Option Rat) : List ApiCall × ToolResult :=
  let body := searchRequestBody namespaces finalQuery top_k kiosk_mode threshold
  (trace ++ [⟨.post, searchUrl, some body⟩],
   match makeApiRequest searchOutcome with
   | .error msg => textResult ("Error searching: " ++ msg)
   | .ok data =>
     match data.results with
     | none => textResult (noResultsText origQuery)
     | some rs =>
       if rs.isEmpty then textResult (noResultsText origQuery)
       else textResult (searchSuccessText origQuery namespaces rs data.total))

/-- search-tools.js lines 15-92: `searchTool.handler`.  The guard at
line 19 (`namespaces && namespaces.length > 0 && typeof query ===
'string'`) is the outer match; inside it the handler fetches the
namespace list, finds the entry named by the first target namespace,
and, when that entry has type `'vector'`, parses the string query. -/
def searchHandler (env : SearchEnv) (namespaces : List String) (query : QueryInput)
    (top_k : Option Rat) (threshold : Option Rat) (kiosk_mode : Option Bool) :
    List ApiCall × ToolResult :=
  let top_k' := top_k.getD 10
  let kiosk' := kiosk_mode.getD false
  match namespaces, query with
  | nm0 :: rest, .str q =>
    let fetchCall : ApiCall := ⟨.get, namespacesUrl, none⟩
    (match makeApiRequest env.listOutcome with
     | .error msg => ([fetchCall], textResult ("Error searching: " ++ msg))
     | .ok data =>
       match (data.namespaces.getD []).find? (fun ns => ns.namespace_name == nm0) with
       | some target =>
         if target.type = some "vector" then
           let arr := parseVectorString q
           if arr = [] ∨ (arr.length : Rat) ≠ dimOrDefault target.vector_dimension arr.length then
             ([fetchCall], textResult (dimErrorText target.vector_dimension))
           else
             searchRequestPhase env.searchOutcome [fetchCall] (.str q) (nm0 :: rest) (.vec arr) top_k' kiosk' threshold
         else
           searchRequestPhase env.searchOutcome [fetchCall] (.str q) (nm0 :: rest) (.str q) top_k' kiosk' threshold
       | none => searchRequestPhase env.searchOutcome [fetchCall] (.str q) (nm0 :: rest) (.str q) top_k' kiosk' threshold)
  | ns, q => searchRequestPhase env.searchOutcome [] q ns q top_k' kiosk' threshold

/-! ### Answer tool (src/src/server/tools/search-tools.js: first
revision lines 96-165, second revision lines 325-394) -/

/-- One `chatHistory` entry. -/
structure ChatMessage where
  role : String
  content : String

def chatToJVal (m : ChatMessage) : JVal :=
  .obj [("role", .str m.role), ("content", .str m.content)]

/-- Conditional body field added by `if (x) { body.key = x }` on a
string-typed argument: included only when defined and non-empty (JS
truthiness), as for `aiModel`, `headerPrompt`, `footerPrompt`. -/
def truthyStrField (key : String) : Option String → List (String × JVal)
  | some s => if s = "" then [] else [(key, JVal.str s)]
  | none => []

/-- `if (chatHistory && chatHistory.length > 0)` on the already-defaulted
(`= []`) argument. -/
def chatHistoryField (ch : List ChatMessage) : List (String × JVal) :=
  if ch.isEmpty then [] else [("chatHistory", JVal.arr (ch.map chatToJVal))]

/-- First revision, lines 117-140: the answer request body.  The base
object carries `namespace`, `query`, `top_k`, `type`, `kiosk_mode` and
— unconditionally — `temperature`; the conditional fields follow in
source order. -/
def answerRequestBody (namespaceArg query : String) (top_k : Rat) (typeArg : String)
    (kiosk_mode : Bool) (temperature : Rat) (threshold : Option Rat) (aiModel : Option String)
    (chatHistory : List ChatMessage) (headerPrompt footerPrompt : Option String) : JVal :=
  .obj ([("namespace", .str namespaceArg),
         ("query", .str query),
         ("top_k", .num top_k),
         ("type", .str typeArg),
         ("kiosk_mode", .bool kiosk_mode),
         ("temperature", .num temperature)]
        ++ thresholdField threshold
        ++ truthyStrField "aiModel" aiModel
        ++ chatHistoryField chatHistory
        ++ truthyStrField "headerPrompt" headerPrompt
        ++ truthyStrField "footerPrompt" footerPrompt)

/-- Second revision, lines 345-369: the answer request body.  The
`temperature` field is appended last, guarded in the source by
`temperature !== undefined` — which always holds, because the
parameter is destructured with default `0.7`. -/
def answerRequestBodyV2 (namespaceArg query : String) (top_k : Rat) (kiosk_mode : Bool)
    (threshold : Option Rat) (aiModel : Option String) (chatHistory : List ChatMessage)
    (headerPrompt footerPrompt : Option String) (temperature : Rat) : JVal :=
  .obj ([("namespace", .str namespaceArg),
         ("query", .str query),
         ("top_k", .num top_k),
         ("kiosk_mode", .bool kiosk_mode)]
        ++ thresholdField threshold
        ++ truthyStrField "aiModel" aiModel
        ++ chatHistoryField chatHistory
        ++ truthyStrField "headerPrompt" headerPrompt
        ++ truthyStrField "footerPrompt" footerPrompt
        ++ [("temperature", JVal.num temperature)])

/-- Lines 144, 373: `data.answer || data.response || JSON.stringify(data, null, 2)`
interpolated after the fixed preamble. -/
def answerResponseText (query namespaceArg : String) (data : JVal) : String :=
  "AI Answer for \"" ++ query ++ "\" in namespace \"" ++ namespaceArg ++ "\":\n\n" ++
    (if jsTruthyOpt (lookupField data "answer") then jsDisplayOpt (lookupField data "answer")
     else if jsTruthyOpt (lookupField data "response") then jsDisplayOpt (lookupField data "response")
     else stringifyJV data)

/-- First revision, lines 115-164: `answerTool.handler`.  The argument
called `namespace` in the source is `namespaceArg` here (`namespace` is
a Lean keyword). -/
def answerHandler (answerOutcome : AxiosOutcome JVal) (namespaceArg query : String)
    (top_k : Option Rat) (threshold : Option Rat) (typeArg : Option String)
    (kiosk_mode : Option Bool) (aiModel : Option String)
    (chatHistory : Option (List ChatMessage)) (headerPrompt footerPrompt : Option String)
    (temperature : Option Rat) : List ApiCall × ToolResult :=
  let body := answerRequestBody namespaceArg query (top_k.getD 5) (typeArg.getD "text")
      (kiosk_mode.getD false) (temperature.getD (7/10)) threshold aiModel
      (chatHistory.getD []) headerPrompt footerPrompt
  ([⟨.post, answerUrl, some body⟩],
   match makeApiRequest answerOutcome with
   | .error msg => textResult ("Error getting AI answer: " ++ msg)
   | .ok data => textResult (answerResponseText query namespaceArg data))

/-- Second revision, lines 343-393: `answerTool.handler` (no `type`
argument; `temperature` appended conditionally on a check that always
holds). -/
def answerHandlerV2 (answerOutcome : AxiosOutcome JVal) (namespaceArg query : String)
    (top_k : Option Rat) (threshold : Option Rat) (kiosk_mode : Option Bool)
    (aiModel : Option String) (chatHistory : Option (List ChatMessage))
    (headerPrompt footerPrompt : Option String) (temperature : Option Rat) :
    List ApiCall × ToolResult :=
  let body := answerRequestBodyV2 namespaceArg query (top_k.getD 5) (kiosk_mode.getD false)
      threshold aiModel (chatHistory.getD []) headerPrompt footerPrompt (temperature.getD (7/10))
  ([⟨.post, answerUrl, some body⟩],
   match makeApiRequest answerOutcome with
   | .error msg => textResult ("Error getting AI answer: " ++ msg)
   | .ok data => textResult (answerResponseText query namespaceArg data))

/-! ### Namespace tools (src/src/server/tools/namespace-tools.js) -/

/-- namespace-tools.js lines 24-33: one formatted namespace block. -/
def nsInfoText (ns : NamespaceInfo) : String :=
  String.intercalate "\n"
    ["Namespace: " ++ ns.namespace_name,
     "Type: " ++ (match ns.type with | some t => t | none => "undefined"),
     "Vector Dimension: " ++
       (match ns.vector_dimension with
        | some d => if d = 0 then "N/A" else jsNumToString d
        | none => "N/A"),
     "Created: " ++ jsDisplayOpt ns.createdAt,
     "Items: " ++ jsDisplayOpt ns.itemCount,
     "---"]

/-- namespace-tools.js lines 9-55: `listNamespacesTool.handler`. -/
def listNamespacesHandler (outcome : AxiosOutcome NsListData) : List ApiCall × ToolResult :=
  ([⟨.get, namespacesUrl, none⟩],
   match makeApiRequest outcome with
   | .error msg => textResult ("Error listing namespaces: " ++ msg)
   | .ok data =>
     match data.namespaces with
     | none => textResult "No namespaces found"
     | some l =>
       if l.isEmpty then textResult "No namespaces found"
       else textResult ("Available namespaces:\n\n" ++
         String.intercalate "\n" (l.map nsInfoText)))

/-- namespace-tools.js lines 69-73: the create body.  The source writes
the object literal `{ namespace_name, type, vector_dimension }`; a
`vector_dimension` that is `undefined` is dropped when the body is
JSON-serialized, so the outbound body omits the field. -/
def createNamespaceBody (namespace_name : String) (typeArg : String)
    (vector_dimension : Option Rat) : JVal :=
  .obj ([("namespace_name", .str namespace_name), ("type", .str typeArg)]
        ++ (match vector_dimension with
            | some d => [("vector_dimension", JVal.num d)]
            | none => []))

/-- namespace-tools.js lines 67-95: `createNamespaceTool.handler`
(`type` defaults to `"text"`). -/
def createNamespaceHandler (outcome : AxiosOutcome JVal) (namespace_name : String)
    (typeArg : Option String) (vector_dimension : Option Rat) : List ApiCall × ToolResult :=
  let body := createNamespaceBody namespace_name (typeArg.getD "text") vector_dimension
  ([⟨.post, namespacesUrl, some body⟩],
   match makeApiRequest outcome with
   | .error msg => textResult ("Error creating namespace: " ++ msg)
   | .ok data => textResult ("Successfully created namespace \"" ++ namespace_name ++
       "\":\n" ++ stringifyJV data))

/-- namespace-tools.js lines 105-129: `deleteNamespaceTool.handler`. -/
def deleteNamespaceHandler (outcome : AxiosOutcome JVal) (namespace_name : String) :
    List ApiCall × ToolResult :=
  ([⟨.delete, namespacesUrl ++ "/" ++ namespace_name, none⟩],
   match makeApiRequest outcome with
   | .error msg => textResult ("Error deleting namespace: " ++ msg)
   | .ok data => textResult ("Successfully deleted namespace \"" ++ namespace_name ++
       "\":\n" ++ stringifyJV data))

/-! ### Data tools (src/unnamed/part_001, identical to
src/server/tools/data-tools.js for the shared tools) -/

/-- One document of the `upload-text` argument. -/
structure DocumentItem where
  id : String
  text : String
  metadata : Option JVal

/-- An `undefined` optional `metadata` property is dropped at serialization. -/
def documentToJVal (d : DocumentItem) : JVal :=
  .obj ([("id", .str d.id), ("text", .str d.text)]
        ++ (match d.metadata with | some m => [("metadata", m)] | none => []))

/-- part_001 lines 16-42: `uploadTextTool.handler`. -/
def uploadTextHandler (outcome : AxiosOutcome JVal) (namespace_name : String)
    (documents : List DocumentItem) : List ApiCall × ToolResult :=
  ([⟨.post, namespacesUrl ++ "/" ++ namespace_name ++ "/documents",
     some (.obj [("documents", .arr (documents.map documentToJVal))])⟩],
   match makeApiRequest outcome with
   | .error msg => textResult ("Error uploading text documents: " ++ msg)
   | .ok data => textResult ("Successfully uploaded " ++ toString documents.length ++
       " document(s) to namespace \"" ++ namespace_name ++ "\":\n" ++ stringifyJV data))

/-- One vector of the `upload-vectors` argument. -/
structure VectorItem where
  id : String
  vector : List Rat
  metadata : Option JVal

def vectorToJVal (v : VectorItem) : JVal :=
  .obj ([("id", .str v.id), ("vector", .arr (v.vector.map JVal.num))]
        ++ (match v.metadata with | some m => [("metadata", m)] | none => []))

/-- part_001 lines 57-83: `uploadVectorsTool.handler`. -/
def uploadVectorsHandler (outcome : AxiosOutcome JVal) (namespace_name : String)
    (vectors : List VectorItem) : List ApiCall × ToolResult :=
  ([⟨.post, namespacesUrl ++ "/" ++ namespace_name ++ "/vectors",
     some (.obj [("vectors", .arr (vectors.map vectorToJVal))])⟩],
   match makeApiRequest outcome with
   | .error msg => textResult ("Error uploading vectors: " ++ msg)
   | .ok data => textResult ("Successfully uploaded " ++ toString vectors.length ++
       " vector(s) to namespace \"" ++ namespace_name ++ "\":\n" ++ stringifyJV data))

/-- part_001 lines 94-120: `deleteDataTool.handler`. -/
def deleteDataHandler (outcome : AxiosOutcome JVal) (namespace_name : String)
    (ids : List String) : List ApiCall × ToolResult :=
  ([⟨.post, namespacesUrl ++ "/" ++ namespace_name ++ "/documents/delete",
     some (.obj [("ids", .arr (ids.map JVal.str))])⟩],
   match makeApiRequest outcome with
   | .error msg => textResult ("Error deleting data: " ++ msg)
   | .ok data => textResult ("Successfully deleted " ++ toString ids.length ++
       " item(s) from namespace \"" ++ namespace_name ++ "\":\n" ++ stringifyJV data))

/-- part_001 lines 131-157: `getDataTool.handler`. -/
def getDataHandler (outcome : AxiosOutcome JVal) (namespace_name : String)
    (ids : List String) : List ApiCall × ToolResult :=
  ([⟨.post, namespacesUrl ++ "/" ++ namespace_name ++ "/documents/get",
     some (.obj [("ids", .arr (ids.map JVal.str))])⟩],
   match makeApiRequest outcome with
   | .error msg => textResult ("Error fetching data: " ++ msg)
   | .ok data => textResult ("Fetched " ++ toString ids.length ++
       " item(s) from namespace \"" ++ namespace_name ++ "\":\n" ++ stringifyJV data))

/-! ### File upload (src/src/server/config/api.js, lines 91-142, and
src/unnamed/part_001, lines 161-193) -/

/-- api.js line 104: the extension allow-list. -/
def allowedExtensions : List String :=
  [".pdf", ".docx", ".xlsx", ".json", ".txt", ".csv", ".md"]

/-- Index of the last `'.'` in a character list, if any. -/
def lastDotIndex (cs : List Char) : Option Nat :=
  ((cs.enum.filter (fun p => p.2 = '.')).getLast?).map (fun p => p.1)

/-- api.js line 105:
`filePath.toLowerCase().substring(filePath.lastIndexOf('.'))`.
When the path has no dot, `lastIndexOf` is `-1` and `substring` clamps
it to `0`, so the "extension" is the whole lower-cased path. -/
def jsExtension (filePath : String) : String :=
  let lower := filePath.data.map Char.toLower
  match lastDotIndex filePath.data with
  | some i => String.mk (lower.drop i)
  | none => String.mk lower

/-- api.js line 100: `fileSizeInMB.toFixed(2)` (round to two decimals;
the corner cases of binary-float rounding are abstracted). -/
def toFixed2 (q : Rat) : String :=
  let cents : Int := ⌊q * 100 + 1/2⌋
  let whole := cents / 100
  let frac := (cents % 100).toNat
  toString whole ++ "." ++ (if frac < 10 then "0" else "") ++ toString frac

/-- api.js lines 92-142: `uploadFile`.  `stat` is the outcome of
`statSync(filePath)` (size in bytes, or the thrown message when the
file does not exist or cannot be read); `outcome` is the axios exchange
of the multipart POST, which is only reached when the local
preconditions pass.  Local throws are caught by the function's own
`catch`, whose no-response branch prefixes `File upload error: `. -/
def uploadFile (stat : Except String Nat) (outcome : AxiosOutcome JVal)
    (namespace_name filePath : String) : List ApiCall × Except String JVal :=
  match stat with
  | .error m => ([], .error ("File upload error: " ++ m))
  | .ok size =>
    let fileSizeInMB : Rat := (size : Rat) / (1024 * 1024)
    if fileSizeInMB > 10 then
      ([], .error ("File upload error: File size (" ++ toFixed2 fileSizeInMB ++
        "MB) exceeds maximum allowed size of 10MB"))
    else
      let fileExtension := jsExtension filePath
      if fileExtension ∈ allowedExtensions then
        match outcome with
        | .success d => ([⟨.post, namespacesUrl ++ "/" ++ namespace_name ++ "/upload-file", none⟩], .ok d)
        | .httpError s b =>
          ([⟨.post, namespacesUrl ++ "/" ++ namespace_name ++ "/upload-file", none⟩],
           .error (classifyHttpError s b))
        | .networkError m =>
          ([⟨.post, namespacesUrl ++ "/" ++ namespace_name ++ "/upload-file", none⟩],
           .error ("File upload error: " ++ m))
      else
        ([], .error ("File upload error: File type \x27" ++ fileExtension ++
          "\x27 is not supported. Allowed types: " ++ String.intercalate ", " allowedExtensions))

/-- part_001 lines 168-192: `uploadFileTool.handler`. -/
def uploadFileToolHandler (stat : Except String Nat) (outcome : AxiosOutcome JVal)
    (namespace_name file_path : String) : List ApiCall × ToolResult :=
  match uploadFile stat outcome namespace_name file_path with
  | (trace, .error m) => (trace, textResult ("Error uploading file: " ++ m))
  | (trace, .ok data) =>
    (trace, textResult ("Successfully uploaded file \"" ++
      jsDisplayOpt (lookupField data "fileName") ++ "\" to namespace \"" ++
      namespace_name ++ "\":\n" ++ stringifyJV data))

/-! ## General lemmas about the embedding -/

theorem findField_append (l1 l2 : List (String × JVal)) (key : String) :
    findField (l1 ++ l2) key =
      match findField l1 key with
      | some v => some v
      | none => findField l2 key := by
  induction l1 with
  | nil => simp [findField]
  | cons h t ih =>
    obtain ⟨k, v⟩ := h
    by_cases hk : k = key
    · simp [findField, hk]
    · simp [findField, hk, ih]

theorem findField_thresholdField (th : Option Rat) :
    findField (thresholdField th) "threshold" = th.map JVal.num := by
  cases th <;> simp [thresholdField, findField]

theorem findField_thresholdField_ne (th : Option Rat) (key : String)
    (h : key ≠ "threshold") : findField (thresholdField th) key = none := by
  cases th <;> simp [thresholdField, findField, Ne.symm h]

theorem findField_truthyStrField_ne (s : Option String) (k key : String)
    (h : key ≠ k) : findField (truthyStrField k s) key = none := by
  cases s with
  | none => simp [truthyStrField, findField]
  | some v =>
    by_cases hv : v = ""
    · simp [truthyStrField, hv, findField]
    · simp [truthyStrField, hv, findField, Ne.symm h]

theorem findField_chatHistoryField_ne (ch : List ChatMessage) (key : String)
    (h : key ≠ "chatHistory") : findField (chatHistoryField ch) key = none := by
  by_cases hc : ch.isEmpty
  · simp [chatHistoryField, hc, findField]
  · simp [chatHistoryField, hc, findField, Ne.symm h]

theorem lookupField_searchRequestBody_threshold (namespaces : List String)
    (fq : QueryInput) (tk : Rat) (km : Bool) (th : Option Rat) :
    lookupField (searchRequestBody namespaces fq tk km th) "threshold" =
      th.map JVal.num := by
  simp only [searchRequestBody, lookupField, findField_append, findField]
  simp [findField_thresholdField]

theorem lookupField_searchRequestBody_query (namespaces : List String)
    (fq : QueryInput) (tk : Rat) (km : Bool) (th : Option Rat) :
    lookupField (searchRequestBody namespaces fq tk km th) "query" =
      some (queryToJVal fq) := by
  simp [searchRequestBody, lookupField, findField]

theorem searchRequestPhase_fst (so : AxiosOutcome SearchData) (trace : List ApiCall)
    (oq : QueryInput) (ns : List String) (fq : QueryInput) (tk : Rat) (km : Bool)
    (th : Option Rat) :
    (searchRequestPhase so trace oq ns fq tk km th).1 =
      trace ++ [⟨.post, searchUrl, some (searchRequestBody ns fq tk km th)⟩] := rfl

theorem namespacesUrl_ne_searchUrl : namespacesUrl ≠ searchUrl := by decide

/-! ## Claims -/

/-- C5: a 401 response is classified as the "Unauthorized" (invalid API
key) message, a 403 as the "Forbidden" message, any other non-2xx
status as a generic API error carrying the status and response body, a
connection-level failure as a network error carrying the underlying
message; the 401 and 403 texts are distinct from each other (for any
response bodies). -/
theorem spec_C5 :
    (∀ (α : Type) (b : String),
      makeApiRequest (α := α) (.httpError 401 b) =
        .error ("Unauthorized: Invalid API key. Status: 401, Response: " ++ b)) ∧
    (∀ (α : Type) (b : String),
      makeApiRequest (α := α) (.httpError 403 b) =
        .error ("Forbidden: Check your API key. Status: 403, Response: " ++ b)) ∧
    (∀ (α : Type) (s : Nat) (b : String), s ≠ 401 → s ≠ 403 →
      makeApiRequest (α := α) (.httpError s b) =
        .error ("API Error (" ++ toString s ++ "): " ++ b)) ∧
    (∀ (α : Type) (m : String),
      makeApiRequest (α := α) (.networkError m) = .error ("Network Error: " ++ m)) ∧
    (∀ b1 b2 : String,
      "Unauthorized: Invalid API key. Status: 401, Response: " ++ b1 ≠
        "Forbidden: Check your API key. Status: 403, Response: " ++ b2) := by
  refine ⟨fun α b => rfl, fun α b => rfl, fun α s b h1 h2 => ?_, fun α m => rfl,
    fun b1 b2 h => ?_⟩
  · simp [makeApiRequest, classifyHttpError, h1, h2]
  · have h2 := congrArg (fun s => s.data.head?) h
    simp [String.data_append] at h2

/-- Closed instance of C5 at status 500. -/
theorem spec_C5_witness :
    makeApiRequest (α := Unit) (.httpError 500 "oops") =
      .error ("API Error (500): oops") :=
  spec_C5.2.2.1 Unit 500 "oops" (by decide) (by decide)

theorem searchHandler_calls (env : SearchEnv) (ns : List String) (q : QueryInput)
    (tk th : Option Rat) (km : Option Bool) :
    ∀ c ∈ (searchHandler env ns q tk th km).1,
      c = ⟨.get, namespacesUrl, none⟩ ∨
      ∃ fq, c = ⟨.post, searchUrl,
        some (searchRequestBody ns fq (tk.getD 10) (km.getD false) th)⟩ := by
  intro c hc
  cases ns with
  | nil =>
    cases q <;>
    · simp only [searchHandler, searchRequestPhase, List.nil_append,
        List.mem_singleton] at hc
      exact Or.inr ⟨_, hc⟩
  | cons nm0 rest =>
    cases q with
    | vec v =>
      simp only [searchHandler, searchRequestPhase, List.nil_append,
        List.mem_singleton] at hc
      exact Or.inr ⟨_, hc⟩
    | str qs =>
      simp only [searchHandler] at hc
      split at hc
      · simp at hc
        exact Or.inl hc
      · split at hc
        · split at hc
          · split at hc
            · simp at hc
              exact Or.inl hc
            · simp only [searchRequestPhase] at hc
              simp at hc
              rcases hc with hc | hc
              · exact Or.inl hc
              · exact Or.inr ⟨_, hc⟩
          · simp only [searchRequestPhase] at hc
            simp at hc
            rcases hc with hc | hc
            · exact Or.inl hc
            · exact Or.inr ⟨_, hc⟩
        · simp only [searchRequestPhase] at hc
          simp at hc
          rcases hc with hc | hc
          · exact Or.inl hc
          · exact Or.inr ⟨_, hc⟩

theorem lookupField_answerRequestBody_threshold (n q : String) (tk : Rat) (ty : String)
    (km : Bool) (te : Rat) (th : Option Rat) (am : Option String) (ch : List ChatMessage)
    (hp fp : Option String) :
    lookupField (answerRequestBody n q tk ty km te th am ch hp fp) "threshold" =
      th.map JVal.num := by
  have h1 : findField (truthyStrField "aiModel" am) "threshold" = none :=
    findField_truthyStrField_ne am "aiModel" "threshold" (by decide)
  have h2 : findField (chatHistoryField ch) "threshold" = none :=
    findField_chatHistoryField_ne ch "threshold" (by decide)
  have h3 : findField (truthyStrField "headerPrompt" hp) "threshold" = none :=
    findField_truthyStrField_ne hp "headerPrompt" "threshold" (by decide)
  have h4 : findField (truthyStrField "footerPrompt" fp) "threshold" = none :=
    findField_truthyStrField_ne fp "footerPrompt" "threshold" (by decide)
  simp [answerRequestBody, lookupField, findField_append, findField,
    findField_thresholdField, h1, h2, h3, h4]
  cases th <;> rfl

theorem lookupField_answerRequestBodyV2_threshold (n q : String) (tk : Rat) (km : Bool)
    (th : Option Rat) (am : Option String) (ch : List ChatMessage)
    (hp fp : Option String) (te : Rat) :
    lookupField (answerRequestBodyV2 n q tk km th am ch hp fp te) "threshold" =
      th.map JVal.num := by
  have h1 : findField (truthyStrField "aiModel" am) "threshold" = none :=
    findField_truthyStrField_ne am "aiModel" "threshold" (by decide)
  have h2 : findField (chatHistoryField ch) "threshold" = none :=
    findField_chatHistoryField_ne ch "threshold" (by decide)
  have h3 : findField (truthyStrField "headerPrompt" hp) "threshold" = none :=
    findField_truthyStrField_ne hp "headerPrompt" "threshold" (by decide)
  have h4 : findField (truthyStrField "footerPrompt" fp) "threshold" = none :=
    findField_truthyStrField_ne fp "footerPrompt" "threshold" (by decide)
  simp [answerRequestBodyV2, lookupField, findField_append, findField,
    findField_thresholdField, h1, h2, h3, h4]
  cases th <;> rfl

/-- C2: in a search or answer invocation, the outbound request body
carries a `threshold` field exactly when the caller supplied one, and
then with exactly the supplied value: when `threshold` is not supplied
the body has no such field at all. -/
theorem spec_C2 :
    (∀ (env : SearchEnv) (ns : List String) (q : QueryInput) (tk th : Option Rat)
        (km : Option Bool) (c : ApiCall) (b : JVal),
      c ∈ (searchHandler env ns q tk th km).1 → c.url = searchUrl → c.body = some b →
        lookupField b "threshold" = th.map JVal.num) ∧
    (∀ (ao : AxiosOutcome JVal) (nsArg qa : String) (tk th : Option Rat)
        (ty : Option String) (km : Option Bool) (am : Option String)
        (ch : Option (List ChatMessage)) (hp fp : Option String) (te : Option Rat),
      ∃ b, (answerHandler ao nsArg qa tk th ty km am ch hp fp te).1 =
          [⟨.post, answerUrl, some b⟩] ∧
        lookupField b "threshold" = th.map JVal.num) ∧
    (∀ (ao : AxiosOutcome JVal) (nsArg qa : String) (tk th : Option Rat)
        (km : Option Bool) (am : Option String) (ch : Option (List ChatMessage))
        (hp fp : Option String) (te : Option Rat),
      ∃ b, (answerHandlerV2 ao nsArg qa tk th km am ch hp fp te).1 =
          [⟨.post, answerUrl, some b⟩] ∧
        lookupField b "threshold" = th.map JVal.num) := by
  refine ⟨?_, ?_, ?_⟩
  · intro env ns q tk th km c b hc hurl hb
    rcases searchHandler_calls env ns q tk th km c hc with h | ⟨fq, h⟩
    · rw [h] at hurl
      exact absurd hurl namespacesUrl_ne_searchUrl
    · rw [h] at hb
      simp at hb
      rw [← hb]
      exact lookupField_searchRequestBody_threshold _ _ _ _ _
  · intro ao nsArg qa tk th ty km am ch hp fp te
    exact ⟨_, rfl, lookupField_answerRequestBody_threshold _ _ _ _ _ _ _ _ _ _ _⟩
  · intro ao nsArg qa tk th km am ch hp fp te
    exact ⟨_, rfl, lookupField_answerRequestBodyV2_threshold _ _ _ _ _ _ _ _ _ _⟩

/-- Closed instance of C2: an unsupplied threshold is absent from the
search body; a supplied `0.8` appears verbatim in the answer body. -/
theorem spec_C2_witness :
    (lookupField (searchRequestBody ["demo"] (.str "hello")
        ((none : Option Rat).getD 10) ((none : Option Bool).getD false) none) "threshold" =
      none ∧
     (searchRequestBody ["demo"] (.str "hello") ((none : Option Rat).getD 10)
        ((none : Option Bool).getD false) none) ∈
       ((searchHandler ⟨.success ⟨some []⟩, .success ⟨none, none⟩⟩ ["demo"] (.str "hello")
          none none none).1.filterMap (fun c => c.body))) ∧
    (∃ b, (answerHandler (.success .null) "demo" "What is X?" none (some (8/10)) none
          none none none none none none).1 = [⟨.post, answerUrl, some b⟩] ∧
      lookupField b "threshold" = some (JVal.num (8/10))) := by
  constructor
  · constructor
    · exact spec_C2.1 ⟨.success ⟨some []⟩, .success ⟨none, none⟩⟩ ["demo"] (.str "hello")
        none none none ⟨.post, searchUrl,
          some (searchRequestBody ["demo"] (.str "hello") ((none : Option Rat).getD 10)
            ((none : Option Bool).getD false) none)⟩ _ (.tail _ (.head _)) rfl rfl
    · exact List.Mem.head _
  · exact spec_C2.2.1 (.success .null) "demo" "What is X?" none (some (8/10)) none
      none none none none none none

theorem thresholdField_none : thresholdField none = [] := rfl

theorem truthyStrField_none (k : String) : truthyStrField k none = [] := rfl

theorem chatHistoryField_nil : chatHistoryField [] = [] := rfl

/-- C7 counterexample: with no optional argument supplied (in
particular no `temperature`), the answer request body of both handler
revisions nevertheless contains a `temperature` field, with the default
value 0.7 — so the body does not include only the fields explicitly
supplied by the caller. -/
theorem spec_C7_counterexample :
    (answerHandler (.success .null) "demo" "What is X?" none none none none none none
        none none none).1 =
      [⟨.post, answerUrl,
        some (answerRequestBody "demo" "What is X?" 5 "text" false (7/10) none none []
          none none)⟩] ∧
    lookupField (answerRequestBody "demo" "What is X?" 5 "text" false (7/10) none none []
        none none) "temperature" = some (JVal.num (7/10)) ∧
    (answerHandlerV2 (.success .null) "demo" "What is X?" none none none none none
        none none none).1 =
      [⟨.post, answerUrl,
        some (answerRequestBodyV2 "demo" "What is X?" 5 false none none [] none none
          (7/10))⟩] ∧
    lookupField (answerRequestBodyV2 "demo" "What is X?" 5 false none none [] none none
        (7/10)) "temperature" = some (JVal.num (7/10)) :=
  ⟨rfl, rfl, rfl, rfl⟩

/-- C7 (amended): in every answer invocation (either revision), each of
`threshold`, `aiModel`, `chatHistory`, `headerPrompt`, `footerPrompt`
is absent from the outbound body whenever the caller did not supply it;
`temperature`, by contrast, is always present, carrying the default 0.7
when not supplied. -/
theorem spec_C7 (nsArg qa : String) (tk th : Option Rat) (ty : Option String)
    (km : Option Bool) (am : Option String) (ch : Option (List ChatMessage))
    (hp fp : Option String) (te : Option Rat) :
    (∀ ao : AxiosOutcome JVal,
      (answerHandler ao nsArg qa tk th ty km am ch hp fp te).1 =
        [⟨.post, answerUrl,
          some (answerRequestBody nsArg qa (tk.getD 5) (ty.getD "text") (km.getD false)
            (te.getD (7/10)) th am (ch.getD []) hp fp)⟩]) ∧
    (∀ ao : AxiosOutcome JVal,
      (answerHandlerV2 ao nsArg qa tk th km am ch hp fp te).1 =
        [⟨.post, answerUrl,
          some (answerRequestBodyV2 nsArg qa (tk.getD 5) (km.getD false) th am
            (ch.getD []) hp fp (te.getD (7/10)))⟩]) ∧
    (∀ body,
      body = answerRequestBody nsArg qa (tk.getD 5) (ty.getD "text") (km.getD false)
          (te.getD (7/10)) th am (ch.getD []) hp fp ∨
      body = answerRequestBodyV2 nsArg qa (tk.getD 5) (km.getD false) th am
          (ch.getD []) hp fp (te.getD (7/10)) →
      (th = none → lookupField body "threshold" = none) ∧
      (am = none → lookupField body "aiModel" = none) ∧
      (ch = none → lookupField body "chatHistory" = none) ∧
      (hp = none → lookupField body "headerPrompt" = none) ∧
      (fp = none → lookupField body "footerPrompt" = none) ∧
      lookupField body "temperature" = some (.num (te.getD (7/10)))) := by
  refine ⟨fun ao => rfl, fun ao => rfl, ?_⟩
  rintro body (rfl | rfl) <;>
    refine ⟨fun h => ?_, fun h => ?_, fun h => ?_, fun h => ?_, fun h => ?_, ?_⟩ <;>
    try subst h
  all_goals
    simp [answerRequestBody, answerRequestBodyV2, lookupField, findField_append,
      findField, thresholdField_none, truthyStrField_none, chatHistoryField_nil,
      findField_thresholdField_ne, findField_truthyStrField_ne,
      findField_chatHistoryField_ne]

/-- Closed instance of the amended C7: with only a `headerPrompt`
supplied, the body omits the other four conditional fields and still
carries `temperature` 0.7. -/
theorem spec_C7_witness :
    (answerHandler (.success .null) "demo" "Q" none none none none none none
        (some "Be brief.") none none).1 =
      [⟨.post, answerUrl,
        some (answerRequestBody "demo" "Q" ((none : Option Rat).getD 5)
          ((none : Option String).getD "text") ((none : Option Bool).getD false)
          ((none : Option Rat).getD (7/10)) none none
          ((none : Option (List ChatMessage)).getD []) (some "Be brief.") none)⟩] ∧
    lookupField (answerRequestBody "demo" "Q" ((none : Option Rat).getD 5)
        ((none : Option String).getD "text") ((none : Option Bool).getD false)
        ((none : Option Rat).getD (7/10)) none none
        ((none : Option (List ChatMessage)).getD []) (some "Be brief.") none)
      "threshold" = none ∧
    lookupField (answerRequestBody "demo" "Q" ((none : Option Rat).getD 5)
        ((none : Option String).getD "text") ((none : Option Bool).getD false)
        ((none : Option Rat).getD (7/10)) none none
        ((none : Option (List ChatMessage)).getD []) (some "Be brief.") none)
      "temperature" = some (.num ((none : Option Rat).getD (7/10))) := by
  have h := spec_C7 "demo" "Q" none none none none none none (some "Be brief.") none none
  exact ⟨h.1 (.success .null), (h.2.2 _ (Or.inl rfl)).1 rfl, (h.2.2 _ (Or.inl rfl)).2.2.2.2.2⟩

theorem sizeCheck_iff (size : Nat) :
    ((size : Rat) / (1024 * 1024) > 10) ↔ 10485760 < size := by
  rw [gt_iff_lt, lt_div_iff₀ (by norm_num : (0 : Rat) < 1024 * 1024)]
  norm_num

/-- C3: the local preconditions of a file upload are checked before any
network call — an unreadable file, a file over 10 MiB, or a
non-allow-listed extension each produce a descriptive error with an
empty call trace — while a readable file of at most (in particular,
exactly) the maximum size whose extension is allow-listed reaches the
multipart upload call. -/
theorem spec_C3 :
    (∀ (o : AxiosOutcome JVal) (nm fp em : String),
      uploadFile (.error em) o nm fp = ([], .error ("File upload error: " ++ em))) ∧
    (∀ (o : AxiosOutcome JVal) (nm fp : String) (size : Nat), size ≤ 10485760 →
      jsExtension fp ∈ allowedExtensions →
      (uploadFile (.ok size) o nm fp).1 =
        [⟨.post, namespacesUrl ++ "/" ++ nm ++ "/upload-file", none⟩]) ∧
    (∀ (o : AxiosOutcome JVal) (nm fp : String) (size : Nat), 10485760 < size →
      uploadFile (.ok size) o nm fp =
        ([], .error ("File upload error: File size (" ++
          toFixed2 ((size : Rat) / (1024 * 1024)) ++
          "MB) exceeds maximum allowed size of 10MB"))) ∧
    (∀ (o : AxiosOutcome JVal) (nm fp : String) (size : Nat), size ≤ 10485760 →
      jsExtension fp ∉ allowedExtensions →
      uploadFile (.ok size) o nm fp =
        ([], .error ("File upload error: File type \x27" ++ jsExtension fp ++
          "\x27 is not supported. Allowed types: " ++
          String.intercalate ", " allowedExtensions))) := by
  refine ⟨fun o nm fp em => rfl, ?_, ?_, ?_⟩
  · intro o nm fp size h1 h2
    have hno : ¬((size : Rat) / (1024 * 1024) > 10) := fun hgt =>
      absurd ((sizeCheck_iff size).mp hgt) (not_lt.mpr h1)
    simp only [uploadFile, hno, if_false, if_pos h2]
    cases o <;> rfl
  · intro o nm fp size h
    have hyes : ((size : Rat) / (1024 * 1024) > 10) := (sizeCheck_iff size).mpr h
    simp only [uploadFile, hyes, if_true]
  · intro o nm fp size h1 h2
    have hno : ¬((size : Rat) / (1024 * 1024) > 10) := fun hgt =>
      absurd ((sizeCheck_iff size).mp hgt) (not_lt.mpr h1)
    simp only [uploadFile, hno, if_false, h2, if_false]

/-- Closed instances of C3: a 10485760-byte ".pdf" reaches the network
call; a 10485761-byte file and an ".exe" file fail locally with no
call; an unreadable file fails locally with no call. -/
theorem spec_C3_witness :
    (uploadFile (.ok 10485760) (.success .null) "demo" "report.pdf").1 =
      [⟨.post, namespacesUrl ++ "/" ++ "demo" ++ "/upload-file", none⟩] ∧
    uploadFile (.ok 10485761) (.success .null) "demo" "report.pdf" =
      ([], .error ("File upload error: File size (" ++
        toFixed2 ((10485761 : Nat) / (1024 * 1024) : Rat) ++
        "MB) exceeds maximum allowed size of 10MB")) ∧
    uploadFile (.ok 1) (.success .null) "demo" "tool.exe" =
      ([], .error ("File upload error: File type \x27" ++ jsExtension "tool.exe" ++
        "\x27 is not supported. Allowed types: " ++
        String.intercalate ", " allowedExtensions)) ∧
    uploadFile (.error "ENOENT: no such file or directory") (.success .null) "demo"
        "missing.pdf" =
      ([], .error ("File upload error: " ++ "ENOENT: no such file or directory")) := by
  refine ⟨?_, ?_, ?_, ?_⟩
  · exact spec_C3.2.1 (.success .null) "demo" "report.pdf" 10485760 (by decide) (by decide)
  · exact spec_C3.2.2.1 (.success .null) "demo" "report.pdf" 10485761 (by decide)
  · exact spec_C3.2.2.2 (.success .null) "demo" "tool.exe" 1 (by decide) (by decide)
  · exact spec_C3.1 (.success .null) "demo" "missing.pdf" "ENOENT: no such file or directory"

theorem searchRequestPhase_snd_text (so : AxiosOutcome SearchData) (tr : List ApiCall)
    (oq : QueryInput) (ns : List String) (fq : QueryInput) (tk : Rat) (km : Bool)
    (th : Option Rat) :
    ∃ s, (searchRequestPhase so tr oq ns fq tk km th).2 = textResult s := by
  cases so with
  | success data =>
    obtain ⟨results, total⟩ := data
    cases results with
    | none => exact ⟨_, rfl⟩
    | some rs => cases rs with
      | nil => exact ⟨_, rfl⟩
      | cons a l => exact ⟨_, rfl⟩
  | httpError st b => exact ⟨_, rfl⟩
  | networkError m => exact ⟨_, rfl⟩

/-- C4 (amended): every handler converts every failure into a
normally-delivered single-text-block result rather than raising it:
each handler is a total function into a one-block text result for
every environment (the `try/catch` around the whole handler body);
whenever the transport call fails — network error or remote 4xx/5xx
(via `makeApiRequest`'s classification) — and whenever the file
upload's local preconditions fail, the delivered text is the thrown
message wrapped with the handler's operation-specific prefix; the
search handler's local query-validation failure, by contrast, is
delivered as its own descriptive validation text, which does not carry
the operation-specific prefix. -/
theorem spec_C4 :
    (∀ (o : AxiosOutcome NsListData) (m : String), makeApiRequest o = .error m →
      (listNamespacesHandler o).2 = textResult ("Error listing namespaces: " ++ m)) ∧
    (∀ (o : AxiosOutcome NsListData), ∃ s, (listNamespacesHandler o).2 = textResult s) ∧
    (∀ (o : AxiosOutcome JVal) (nm : String) (ty : Option String) (vd : Option Rat)
        (m : String), makeApiRequest o = .error m →
      (createNamespaceHandler o nm ty vd).2 = textResult ("Error creating namespace: " ++ m)) ∧
    (∀ (o : AxiosOutcome JVal) (nm : String) (ty : Option String) (vd : Option Rat),
      ∃ s, (createNamespaceHandler o nm ty vd).2 = textResult s) ∧
    (∀ (o : AxiosOutcome JVal) (nm m : String), makeApiRequest o = .error m →
      (deleteNamespaceHandler o nm).2 = textResult ("Error deleting namespace: " ++ m)) ∧
    (∀ (o : AxiosOutcome JVal) (nm : String), ∃ s, (deleteNamespaceHandler o nm).2 = textResult s) ∧
    (∀ (o : AxiosOutcome JVal) (nm : String) (docs : List DocumentItem) (m : String),
        makeApiRequest o = .error m →
      (uploadTextHandler o nm docs).2 = textResult ("Error uploading text documents: " ++ m)) ∧
    (∀ (o : AxiosOutcome JVal) (nm : String) (docs : List DocumentItem),
      ∃ s, (uploadTextHandler o nm docs).2 = textResult s) ∧
    (∀ (o : AxiosOutcome JVal) (nm : String) (vs : List VectorItem) (m : String),
        makeApiRequest o = .error m →
      (uploadVectorsHandler o nm vs).2 = textResult ("Error uploading vectors: " ++ m)) ∧
    (∀ (o : AxiosOutcome JVal) (nm : String) (vs : List VectorItem),
      ∃ s, (uploadVectorsHandler o nm vs).2 = textResult s) ∧
    (∀ (o : AxiosOutcome JVal) (nm : String) (ids : List String) (m : String),
        makeApiRequest o = .error m →
      (deleteDataHandler o nm ids).2 = textResult ("Error deleting data: " ++ m)) ∧
    (∀ (o : AxiosOutcome JVal) (nm : String) (ids : List String),
      ∃ s, (deleteDataHandler o nm ids).2 = textResult s) ∧
    (∀ (o : AxiosOutcome JVal) (nm : String) (ids : List String) (m : String),
        makeApiRequest o = .error m →
      (getDataHandler o nm ids).2 = textResult ("Error fetching data: " ++ m)) ∧
    (∀ (o : AxiosOutcome JVal) (nm : String) (ids : List String),
      ∃ s, (getDataHandler o nm ids).2 = textResult s) ∧
    (∀ (stat : Except String Nat) (o : AxiosOutcome JVal) (nm fp m : String),
        (uploadFile stat o nm fp).2 = .error m →
      (uploadFileToolHandler stat o nm fp).2 = textResult ("Error uploading file: " ++ m)) ∧
    (∀ (stat : Except String Nat) (o : AxiosOutcome JVal) (nm fp : String),
      ∃ s, (uploadFileToolHandler stat o nm fp).2 = textResult s) ∧
    (∀ (env : SearchEnv) (nm0 : String) (rest : List String) (qs : String)
        (tk th : Option Rat) (km : Option Bool) (m : String),
        makeApiRequest env.listOutcome = .error m →
      (searchHandler env (nm0 :: rest) (.str qs) tk th km).2 =
        textResult ("Error searching: " ++ m)) ∧
    (∀ (so : AxiosOutcome SearchData) (tr : List ApiCall) (oq : QueryInput)
        (ns : List String) (fq : QueryInput) (tk : Rat) (km : Bool) (th : Option Rat)
        (m : String), makeApiRequest so = .error m →
      (searchRequestPhase so tr oq ns fq tk km th).2 =
        textResult ("Error searching: " ++ m)) ∧
    (∀ (env : SearchEnv) (ns : List String) (q : QueryInput) (tk th : Option Rat)
        (km : Option Bool), ∃ s, (searchHandler env ns q tk th km).2 = textResult s) ∧
    (∀ (ao : AxiosOutcome JVal) (nsArg qa : String) (tk th : Option Rat)
        (ty : Option String) (km : Option Bool) (am : Option String)
        (ch : Option (List ChatMessage)) (hp fp : Option String) (te : Option Rat)
        (m : String), makeApiRequest ao = .error m →
      (answerHandler ao nsArg qa tk th ty km am ch hp fp te).2 =
        textResult ("Error getting AI answer: " ++ m)) ∧
    (∀ (ao : AxiosOutcome JVal) (nsArg qa : String) (tk th : Option Rat)
        (ty : Option String) (km : Option Bool) (am : Option String)
        (ch : Option (List ChatMessage)) (hp fp : Option String) (te : Option Rat),
      ∃ s, (answerHandler ao nsArg qa tk th ty km am ch hp fp te).2 = textResult s) ∧
    (∀ (ao : AxiosOutcome JVal) (nsArg qa : String) (tk th : Option Rat)
        (km : Option Bool) (am : Option String) (ch : Option (List ChatMessage))
        (hp fp : Option String) (te : Option Rat) (m : String),
        makeApiRequest ao = .error m →
      (answerHandlerV2 ao nsArg qa tk th km am ch hp fp te).2 =
        textResult ("Error getting AI answer: " ++ m)) ∧
    (∀ (ao : AxiosOutcome JVal) (nsArg qa : String) (tk th : Option Rat)
        (km : Option Bool) (am : Option String) (ch : Option (List ChatMessage))
        (hp fp : Option String) (te : Option Rat),
      ∃ s, (answerHandlerV2 ao nsArg qa tk th km am ch hp fp te).2 = textResult s) ∧
    (∀ (env : SearchEnv) (data : NsListData) (nm0 : String) (rest : List String)
        (q : String) (target : NamespaceInfo) (tk th : Option Rat) (km : Option Bool),
      env.listOutcome = .success data →
      (data.namespaces.getD []).find? (fun ns => ns.namespace_name == nm0) = some target →
      target.type = some "vector" →
      (parseVectorString q = [] ∨
        ((parseVectorString q).length : Rat) ≠
          dimOrDefault target.vector_dimension (parseVectorString q).length) →
      (searchHandler env (nm0 :: rest) (.str q) tk th km).2 =
        textResult (dimErrorText target.vector_dimension)) := by
  refine ⟨?_, ?_, ?_, ?_, ?_, ?_, ?_, ?_, ?_, ?_, ?_, ?_, ?_, ?_, ?_, ?_, ?_, ?_, ?_, ?_,
    ?_, ?_, ?_, ?_⟩
  · intro o m h
    simp only [listNamespacesHandler, h]
  · intro o
    cases o with
    | success data =>
      obtain ⟨nss⟩ := data
      cases nss with
      | none => exact ⟨_, rfl⟩
      | some l => cases l with
        | nil => exact ⟨_, rfl⟩
        | cons a t => exact ⟨_, rfl⟩
    | httpError st b => exact ⟨_, rfl⟩
    | networkError m => exact ⟨_, rfl⟩
  · intro o nm ty vd m h
    simp only [createNamespaceHandler, h]
  · intro o nm ty vd
    cases o <;> exact ⟨_, rfl⟩
  · intro o nm m h
    simp only [deleteNamespaceHandler, h]
  · intro o nm
    cases o <;> exact ⟨_, rfl⟩
  · intro o nm docs m h
    simp only [uploadTextHandler, h]
  · intro o nm docs
    cases o <;> exact ⟨_, rfl⟩
  · intro o nm vs m h
    simp only [uploadVectorsHandler, h]
  · intro o nm vs
    cases o <;> exact ⟨_, rfl⟩
  · intro o nm ids m h
    simp only [deleteDataHandler, h]
  · intro o nm ids
    cases o <;> exact ⟨_, rfl⟩
  · intro o nm ids m h
    simp only [getDataHandler, h]
  · intro o nm ids
    cases o <;> exact ⟨_, rfl⟩
  · intro stat o nm fp m h
    rcases hu : uploadFile stat o nm fp with ⟨tr, res⟩
    rw [hu] at h
    cases res with
    | error em =>
      simp only at h
      cases h
      simp only [uploadFileToolHandler, hu]
    | ok d => simp at h
  · intro stat o nm fp
    rcases hu : uploadFile stat o nm fp with ⟨tr, res⟩
    cases res <;>
    · simp only [uploadFileToolHandler, hu]
      exact ⟨_, rfl⟩
  · intro env nm0 rest qs tk th km m h
    simp only [searchHandler, h]
  · intro so tr oq ns fq tk km th m h
    simp only [searchRequestPhase, h]
  · intro env ns q tk th km
    cases ns <;> cases q <;> simp only [searchHandler] <;>
      first
        | exact searchRequestPhase_snd_text _ _ _ _ _ _ _ _
        | (repeat' split) <;>
          first
            | exact ⟨_, rfl⟩
            | exact searchRequestPhase_snd_text _ _ _ _ _ _ _ _
  · intro ao nsArg qa tk th ty km am ch hp fp te m h
    simp only [answerHandler, h]
  · intro ao nsArg qa tk th ty km am ch hp fp te
    cases ao <;> exact ⟨_, rfl⟩
  · intro ao nsArg qa tk th km am ch hp fp te m h
    simp only [answerHandlerV2, h]
  · intro ao nsArg qa tk th km am ch hp fp te
    cases ao <;> exact ⟨_, rfl⟩
  · intro env data nm0 rest q target tk th km henv hfind htype hcond
    have hred : searchHandler env (nm0 :: rest) (.str q) tk th km =
        if parseVectorString q = [] ∨
            ((parseVectorString q).length : Rat) ≠
              dimOrDefault target.vector_dimension (parseVectorString q).length then
          ([⟨.get, namespacesUrl, none⟩], textResult (dimErrorText target.vector_dimension))
        else
          searchRequestPhase env.searchOutcome [⟨.get, namespacesUrl, none⟩] (.str q)
            (nm0 :: rest) (.vec (parseVectorString q)) (tk.getD 10) (km.getD false) th := by
      simp only [searchHandler, henv, makeApiRequest, hfind, htype, if_pos]
    rw [hred, if_pos hcond]

/-- C4 counterexample: a local query-validation failure of the search
handler is delivered as the validation text, which does not start with
the handler's operation-specific prefix "Error searching: " — so not
every failure text is wrapped with an operation-specific prefix. -/
theorem spec_C4_counterexample :
    (searchHandler
        ⟨.success ⟨some [⟨"demo", some "vector", some 3, none, none⟩]⟩, .success ⟨none, none⟩⟩
        ["demo"] (.str "not a vector") none none none).2 =
      textResult (dimErrorText (some 3)) ∧
    "Error searching: ".data.isPrefixOf (dimErrorText (some 3)).data = false :=
  ⟨rfl, by decide⟩

/-- Closed instances of C4: a connection failure during list-namespaces
and a remote 500 during answer are both delivered as prefixed text
results. -/
theorem spec_C4_witness :
    (listNamespacesHandler (.networkError "connection refused")).2 =
      textResult ("Error listing namespaces: " ++ "Network Error: connection refused") ∧
    (answerHandler (.httpError 500 "oops") "demo" "Q" none none none none none none
        none none none).2 =
      textResult ("Error getting AI answer: " ++ "API Error (500): oops") := by
  have h := spec_C4
  exact ⟨h.1 (.networkError "connection refused") _ rfl,
    h.2.2.2.2.2.2.2.2.2.2.2.2.2.2.2.2.2.2.2.1 (.httpError 500 "oops") "demo" "Q"
      none none none none none none none none none _ rfl⟩

/-- C1: for a search whose query is a string and whose first target
namespace resolves (in the fetched namespace list) to an entry of kind
"vector" with a configured (non-zero) dimension `d`, the handler parses
the string as a comma-separated list of numbers; if the parse yields no
numbers or the parsed length differs from `d`, the handler returns the
validation-error text and issues no call to the search endpoint;
otherwise the parsed array replaces the string as the query of the
search request. -/
theorem spec_C1 (env : SearchEnv) (data : NsListData) (nm0 : String) (rest : List String)
    (q : String) (target : NamespaceInfo) (d : Rat)
    (henv : env.listOutcome = .success data)
    (hfind : (data.namespaces.getD []).find? (fun ns => ns.namespace_name == nm0) = some target)
    (htype : target.type = some "vector")
    (hdim : target.vector_dimension = some d) (hd0 : d ≠ 0)
    (top_k threshold : Option Rat) (kiosk_mode : Option Bool) :
    (parseVectorString q = [] ∨ ((parseVectorString q).length : Rat) ≠ d →
      searchHandler env (nm0 :: rest) (.str q) top_k threshold kiosk_mode =
        ([⟨.get, namespacesUrl, none⟩], textResult (dimErrorText (some d))) ∧
      ∀ c ∈ (searchHandler env (nm0 :: rest) (.str q) top_k threshold kiosk_mode).1,
        c.url ≠ searchUrl) ∧
    (parseVectorString q ≠ [] → ((parseVectorString q).length : Rat) = d →
      (searchHandler env (nm0 :: rest) (.str q) top_k threshold kiosk_mode).1 =
        [⟨.get, namespacesUrl, none⟩,
         ⟨.post, searchUrl,
          some (searchRequestBody (nm0 :: rest) (.vec (parseVectorString q))
            (top_k.getD 10) (kiosk_mode.getD false) threshold)⟩] ∧
      lookupField
        (searchRequestBody (nm0 :: rest) (.vec (parseVectorString q))
          (top_k.getD 10) (kiosk_mode.getD false) threshold) "query" =
        some (.arr ((parseVectorString q).map JVal.num))) := by
  have hdo : dimOrDefault target.vector_dimension (parseVectorString q).length = d := by
    rw [hdim]; simp [dimOrDefault, hd0]
  have hred : searchHandler env (nm0 :: rest) (.str q) top_k threshold kiosk_mode =
      if parseVectorString q = [] ∨
          ((parseVectorString q).length : Rat) ≠
            dimOrDefault target.vector_dimension (parseVectorString q).length then
        ([⟨.get, namespacesUrl, none⟩], textResult (dimErrorText target.vector_dimension))
      else
        searchRequestPhase env.searchOutcome [⟨.get, namespacesUrl, none⟩] (.str q) (nm0 :: rest)
          (.vec (parseVectorString q)) (top_k.getD 10) (kiosk_mode.getD false) threshold := by
    simp only [searchHandler, henv, makeApiRequest, hfind, htype, if_pos]
  constructor
  · intro h
    have hcond : parseVectorString q = [] ∨
        ((parseVectorString q).length : Rat) ≠
          dimOrDefault target.vector_dimension (parseVectorString q).length := by
      rw [hdo]; exact h
    rw [hred, if_pos hcond, hdim]
    refine ⟨rfl, ?_⟩
    intro c hc
    simp at hc
    rw [hc]
    exact namespacesUrl_ne_searchUrl
  · intro hne hlen
    have hcond : ¬(parseVectorString q = [] ∨
        ((parseVectorString q).length : Rat) ≠
          dimOrDefault target.vector_dimension (parseVectorString q).length) := by
      rw [hdo]
      push_neg
      exact ⟨hne, hlen⟩
    rw [hred, if_neg hcond]
    exact ⟨rfl, lookupField_searchRequestBody_query _ _ _ _ _⟩

/-- Closed instance of C1: against a vector namespace of dimension 3,
the query string "not a vector" is rejected without a search call, and
the query string "1, 2, 3" goes out as the parsed three-element array. -/
theorem spec_C1_witness :
    (searchHandler
        ⟨.success ⟨some [⟨"demo", some "vector", some 3, none, none⟩]⟩, .success ⟨none, none⟩⟩
        ["demo"] (.str "not a vector") none none none =
      ([⟨.get, namespacesUrl, none⟩], textResult (dimErrorText (some 3))) ∧
     ∀ c ∈ (searchHandler
        ⟨.success ⟨some [⟨"demo", some "vector", some 3, none, none⟩]⟩, .success ⟨none, none⟩⟩
        ["demo"] (.str "not a vector") none none none).1, c.url ≠ searchUrl) ∧
    ((searchHandler
        ⟨.success ⟨some [⟨"demo", some "vector", some 3, none, none⟩]⟩, .success ⟨none, none⟩⟩
        ["demo"] (.str "1, 2, 3") none none none).1 =
      [⟨.get, namespacesUrl, none⟩,
       ⟨.post, searchUrl,
        some (searchRequestBody ["demo"] (.vec (parseVectorString "1, 2, 3"))
          ((none : Option Rat).getD 10) ((none : Option Bool).getD false) none)⟩]) := by
  refine ⟨?_, ?_⟩
  · exact (spec_C1 ⟨.success ⟨some [⟨"demo", some "vector", some 3, none, none⟩]⟩,
        .success ⟨none, none⟩⟩ ⟨some [⟨"demo", some "vector", some 3, none, none⟩]⟩
      "demo" [] "not a vector" ⟨"demo", some "vector", some 3, none, none⟩ 3
      rfl rfl rfl rfl (by decide) none none none).1 (Or.inl (by decide))
  · exact ((spec_C1 ⟨.success ⟨some [⟨"demo", some "vector", some 3, none, none⟩]⟩,
        .success ⟨none, none⟩⟩ ⟨some [⟨"demo", some "vector", some 3, none, none⟩]⟩
      "demo" [] "1, 2, 3" ⟨"demo", some "vector", some 3, none, none⟩ 3
      rfl rfl rfl rfl (by decide) none none none).2 (by decide) (by decide)).1

/-- C6: a search invocation whose query is already a numeric array makes
no namespace-metadata lookup — the handler's only call is the search
POST, its body's query field is exactly the input array, and the
handler's behaviour does not depend on the namespace-list outcome at
all, whatever the target namespaces are. -/
theorem spec_C6 (env : SearchEnv) (namespaces : List String) (v : List Rat)
    (top_k threshold : Option Rat) (kiosk_mode : Option Bool) :
    (searchHandler env namespaces (.vec v) top_k threshold kiosk_mode).1 =
      [⟨.post, searchUrl,
        some (searchRequestBody namespaces (.vec v) (top_k.getD 10)
          (kiosk_mode.getD false) threshold)⟩] ∧
    lookupField
      (searchRequestBody namespaces (.vec v) (top_k.getD 10)
        (kiosk_mode.getD false) threshold) "query" =
      some (.arr (v.map JVal.num)) ∧
    (∀ env2 : SearchEnv, env2.searchOutcome = env.searchOutcome →
      searchHandler env2 namespaces (.vec v) top_k threshold kiosk_mode =
        searchHandler env namespaces (.vec v) top_k threshold kiosk_mode) := by
  refine ⟨?_, lookupField_searchRequestBody_query _ _ _ _ _, ?_⟩
  · cases namespaces <;> rfl
  · intro env2 h
    cases namespaces <;> simp only [searchHandler, h]

/-- Closed instance of C6 with a three-element array query. -/
theorem spec_C6_witness :
    (searchHandler ⟨.networkError "down", .success ⟨none, none⟩⟩ ["demo"]
        (.vec [1/10, 2/10, 3/10]) none none none).1 =
      [⟨.post, searchUrl,
        some (searchRequestBody ["demo"] (.vec [1/10, 2/10, 3/10])
          ((none : Option Rat).getD 10) ((none : Option Bool).getD false) none)⟩] ∧
    searchHandler ⟨.success ⟨some []⟩, .success ⟨none, none⟩⟩ ["demo"]
        (.vec [1/10, 2/10, 3/10]) none none none =
      searchHandler ⟨.networkError "down", .success ⟨none, none⟩⟩ ["demo"]
        (.vec [1/10, 2/10, 3/10]) none none none :=
  ⟨(spec_C6 _ ["demo"] [1/10, 2/10, 3/10] none none none).1,
   (spec_C6 _ ["demo"] [1/10, 2/10, 3/10] none none none).2.2 _ rfl⟩

/-- C8: with a string query and two or more target namespaces, the
handler consults the fetched namespace list only through the entry
found for the first namespace name: any two fetched lists whose lookup
of the first name agrees produce identical behaviour, whatever the
other namespaces' entries are. -/
theorem spec_C8 (so : AxiosOutcome SearchData) (L1 L2 : List NamespaceInfo)
    (nm0 nm1 : String) (rest : List String) (q : String)
    (hfind : L1.find? (fun ns => ns.namespace_name == nm0) =
      L2.find? (fun ns => ns.namespace_name == nm0))
    (top_k threshold : Option Rat) (kiosk_mode : Option Bool) :
    searchHandler ⟨.success ⟨some L1⟩, so⟩ (nm0 :: nm1 :: rest) (.str q)
        top_k threshold kiosk_mode =
      searchHandler ⟨.success ⟨some L2⟩, so⟩ (nm0 :: nm1 :: rest) (.str q)
        top_k threshold kiosk_mode := by
  simp only [searchHandler, makeApiRequest, Option.getD_some]
  rw [hfind]

/-- Closed instance of C8: the second namespace's entry is "vector" in
one fetched list and "text" in the other; behaviour is identical. -/
theorem spec_C8_witness :
    searchHandler
        ⟨.success ⟨some [⟨"a", some "text", none, none, none⟩,
          ⟨"b", some "vector", some 2, none, none⟩]⟩, .success ⟨none, none⟩⟩
        ["a", "b"] (.str "hello") none none none =
      searchHandler
        ⟨.success ⟨some [⟨"a", some "text", none, none, none⟩,
          ⟨"b", some "text", none, none, none⟩]⟩, .success ⟨none, none⟩⟩
        ["a", "b"] (.str "hello") none none none :=
  spec_C8 (.success ⟨none, none⟩)
    [⟨"a", some "text", none, none, none⟩, ⟨"b", some "vector", some 2, none, none⟩]
    [⟨"a", some "text", none, none, none⟩, ⟨"b", some "text", none, none, none⟩]
    "a" "b" [] "hello" rfl none none none

/-- C9: against a vector-kind namespace whose fetched metadata has no
usable `vector_dimension` (absent/null, modelled as `none`, or `0`),
the length check compares the parsed length against itself, so any
string parsing to at least one number passes validation and is sent as
a vector of whatever length it parsed to. -/
theorem spec_C9 (env : SearchEnv) (data : NsListData) (nm0 : String) (rest : List String)
    (q : String) (target : NamespaceInfo)
    (henv : env.listOutcome = .success data)
    (hfind : (data.namespaces.getD []).find? (fun ns => ns.namespace_name == nm0) = some target)
    (htype : target.type = some "vector")
    (hdim : target.vector_dimension = none ∨ target.vector_dimension = some 0)
    (hne : parseVectorString q ≠ [])
    (top_k threshold : Option Rat) (kiosk_mode : Option Bool) :
    (searchHandler env (nm0 :: rest) (.str q) top_k threshold kiosk_mode).1 =
      [⟨.get, namespacesUrl, none⟩,
       ⟨.post, searchUrl,
        some (searchRequestBody (nm0 :: rest) (.vec (parseVectorString q))
          (top_k.getD 10) (kiosk_mode.getD false) threshold)⟩] ∧
    lookupField
      (searchRequestBody (nm0 :: rest) (.vec (parseVectorString q))
        (top_k.getD 10) (kiosk_mode.getD false) threshold) "query" =
      some (.arr ((parseVectorString q).map JVal.num)) := by
  have hdo : dimOrDefault target.vector_dimension (parseVectorString q).length =
      ((parseVectorString q).length : Rat) := by
    rcases hdim with h | h <;> rw [h] <;> simp [dimOrDefault]
  have hcond : ¬(parseVectorString q = [] ∨
      ((parseVectorString q).length : Rat) ≠
        dimOrDefault target.vector_dimension (parseVectorString q).length) := by
    rw [hdo]
    push_neg
    exact ⟨hne, rfl⟩
  have hred : searchHandler env (nm0 :: rest) (.str q) top_k threshold kiosk_mode =
      searchRequestPhase env.searchOutcome [⟨.get, namespacesUrl, none⟩] (.str q) (nm0 :: rest)
        (.vec (parseVectorString q)) (top_k.getD 10) (kiosk_mode.getD false) threshold := by
    simp only [searchHandler, henv, makeApiRequest, hfind, htype, if_pos, if_neg hcond]
  rw [hred]
  exact ⟨rfl, lookupField_searchRequestBody_query _ _ _ _ _⟩

/-- Closed instance of C9: a vector namespace with no configured
dimension accepts "1, 2" as a two-element vector. -/
theorem spec_C9_witness :
    (searchHandler
        ⟨.success ⟨some [⟨"demo", some "vector", none, none, none⟩]⟩, .success ⟨none, none⟩⟩
        ["demo"] (.str "1, 2") none none none).1 =
      [⟨.get, namespacesUrl, none⟩,
       ⟨.post, searchUrl,
        some (searchRequestBody ["demo"] (.vec (parseVectorString "1, 2"))
          ((none : Option Rat).getD 10) ((none : Option Bool).getD false) none)⟩] :=
  (spec_C9 ⟨.success ⟨some [⟨"demo", some "vector", none, none, none⟩]⟩, .success ⟨none, none⟩⟩
    ⟨some [⟨"demo", some "vector", none, none, none⟩]⟩ "demo" [] "1, 2"
    ⟨"demo", some "vector", none, none, none⟩ rfl rfl rfl (Or.inl rfl) (by decide)
    none none none).1

/-- C10: within the comma-separated parse, pieces that do not parse as
numbers are discarded before the emptiness and length checks, so a
partially non-numeric string whose surviving numeric entries match the
namespace dimension is accepted and its surviving entries are sent as
the vector query. -/
theorem spec_C10 (env : SearchEnv) (data : NsListData) (nm0 : String) (rest : List String)
    (q : String) (target : NamespaceInfo) (d : Rat) (kept : List Rat)
    (henv : env.listOutcome = .success data)
    (hfind : (data.namespaces.getD []).find? (fun ns => ns.namespace_name == nm0) = some target)
    (htype : target.type = some "vector")
    (hdim : target.vector_dimension = some d) (hd0 : d ≠ 0)
    (hkept : (splitOnComma q.data).filterMap (fun cs => jsParseFloatChars (trimChars cs)) = kept)
    (hne : kept ≠ []) (hlen : (kept.length : Rat) = d)
    (top_k threshold : Option Rat) (kiosk_mode : Option Bool) :
    (searchHandler env (nm0 :: rest) (.str q) top_k threshold kiosk_mode).1 =
      [⟨.get, namespacesUrl, none⟩,
       ⟨.post, searchUrl,
        some (searchRequestBody (nm0 :: rest) (.vec kept)
          (top_k.getD 10) (kiosk_mode.getD false) threshold)⟩] ∧
    lookupField
      (searchRequestBody (nm0 :: rest) (.vec kept)
        (top_k.getD 10) (kiosk_mode.getD false) threshold) "query" =
      some (.arr (kept.map JVal.num)) := by
  have hpv : parseVectorString q = kept := hkept
  have hdo : dimOrDefault target.vector_dimension (parseVectorString q).length = d := by
    rw [hdim]; simp [dimOrDefault, hd0]
  have hcond : ¬(parseVectorString q = [] ∨
      ((parseVectorString q).length : Rat) ≠
        dimOrDefault target.vector_dimension (parseVectorString q).length) := by
    rw [hdo, hpv]
    push_neg
    exact ⟨hne, hlen⟩
  have hred : searchHandler env (nm0 :: rest) (.str q) top_k threshold kiosk_mode =
      searchRequestPhase env.searchOutcome [⟨.get, namespacesUrl, none⟩] (.str q) (nm0 :: rest)
        (.vec (parseVectorString q)) (top_k.getD 10) (kiosk_mode.getD false) threshold := by
    simp only [searchHandler, henv, makeApiRequest, hfind, htype, if_pos, if_neg hcond]
  rw [hred, hpv]
  exact ⟨rfl, lookupField_searchRequestBody_query _ _ _ _ _⟩

/-- Closed instance of C10: "1, x, 2" splits into three pieces, one of
which is dropped as non-numeric; the two survivors match dimension 2
and are sent as the vector. -/
theorem spec_C10_witness :
    (splitOnComma "1, x, 2".data).length = 3 ∧
    (parseVectorString "1, x, 2").length = 2 ∧
    (searchHandler
        ⟨.success ⟨some [⟨"demo", some "vector", some 2, none, none⟩]⟩, .success ⟨none, none⟩⟩
        ["demo"] (.str "1, x, 2") none none none).1 =
      [⟨.get, namespacesUrl, none⟩,
       ⟨.post, searchUrl,
        some (searchRequestBody ["demo"] (.vec (parseVectorString "1, x, 2"))
          ((none : Option Rat).getD 10) ((none : Option Bool).getD false) none)⟩] :=
  ⟨by decide, by decide,
   (spec_C10 ⟨.success ⟨some [⟨"demo", some "vector", some 2, none, none⟩]⟩, .success ⟨none, none⟩⟩
     ⟨some [⟨"demo", some "vector", some 2, none, none⟩]⟩ "demo" [] "1, x, 2"
     ⟨"demo", some "vector", some 2, none, none⟩ 2 (parseVectorString "1, x, 2")
     rfl rfl rfl rfl (by decide) rfl (by decide) (by decide) none none none).1⟩

end Moorcheh
